import Mathlib

/-!
Verification of the signed-request client in src/Request.ts of
instagram-connect.  The development embeds the request pipeline as pure
Lean functions: byte-level HMAC-SHA256 signing, JSON serialization in
insertion order, JS object-spread merging of header and body maps, and
the response hook that copies selected response headers into session
state.  Machine words are Nat values reduced modulo 2^32 where the
source relies on 32-bit wrap-around.
-/

namespace IC

/-- Reduce to a 32-bit word. -/
def w32 (x : Nat) : Nat := x % 4294967296

/-- Rotate a 32-bit word right by n bits. -/
def rotr (n x : Nat) : Nat := w32 ((x >>> n) ||| (x <<< (32 - n)))

/-- SHA-256 choice function. -/
def ch (x y z : Nat) : Nat := (x &&& y) ^^^ ((4294967295 - w32 x) &&& z)

/-- SHA-256 majority function. -/
def maj (x y z : Nat) : Nat := (x &&& y) ^^^ (x &&& z) ^^^ (y &&& z)

/-- SHA-256 big sigma 0. -/
def bsig0 (x : Nat) : Nat := rotr 2 x ^^^ rotr 13 x ^^^ rotr 22 x

/-- SHA-256 big sigma 1. -/
def bsig1 (x : Nat) : Nat := rotr 6 x ^^^ rotr 11 x ^^^ rotr 25 x

/-- SHA-256 small sigma 0. -/
def ssig0 (x : Nat) : Nat := rotr 7 x ^^^ rotr 18 x ^^^ (x >>> 3)

/-- SHA-256 small sigma 1. -/
def ssig1 (x : Nat) : Nat := rotr 17 x ^^^ rotr 19 x ^^^ (x >>> 10)

/-- Round constants of SHA-256, written in decimal. -/
def sha256K : List Nat :=
  [1116352408, 1899447441, 3049323471, 3921009573, 961987163, 1508970993, 2453635748, 2870763221,
   3624381080, 310598401, 607225278, 1426881987, 1925078388, 2162078206, 2614888103, 3248222580,
   3835390401, 4022224774, 264347078, 604807628, 770255983, 1249150122, 1555081692, 1996064986,
   2554220882, 2821834349, 2952996808, 3210313671, 3336571891, 3584528711, 113926993, 338241895,
   666307205, 773529912, 1294757372, 1396182291, 1695183700, 1986661051, 2177026350, 2456956037,
   2730485921, 2820302411, 3259730800, 3345764771, 3516065817, 3600352804, 4094571909, 275423344,
   430227734, 506948616, 659060556, 883997877, 958139571, 1322822218, 1537002063, 1747873779,
   1955562222, 2024104815, 2227730452, 2361852424, 2428436474, 2756734187, 3204031479, 3329325298]

/-- Working state of the SHA-256 compression function: eight 32-bit words. -/
structure Sha256State where
  a : Nat
  b : Nat
  c : Nat
  d : Nat
  e : Nat
  f : Nat
  g : Nat
  hh : Nat
deriving Repr, DecidableEq

/-- Initial hash value of SHA-256, written in decimal. -/
def sha256Init : Sha256State :=
  ⟨1779033703, 3144134277, 1013904242, 2773480762, 1359893119, 2600822924, 528734635, 1541459225⟩

/-- One SHA-256 round: kw is the sum input of the round constant and schedule word. -/
def sha256Round (s : Sha256State) (kw : Nat) : Sha256State :=
  let t1 := w32 (s.hh + bsig1 s.e + ch s.e s.f s.g + kw)
  let t2 := w32 (bsig0 s.a + maj s.a s.b s.c)
  ⟨w32 (t1 + t2), s.a, s.b, s.c, w32 (s.d + t1), s.e, s.f, s.g⟩

/-- Big-endian 32-bit word from four bytes, head of list most significant. -/
def beWords : List Nat → List Nat
  | a :: b :: c :: d :: rest => (a <<< 24 + b <<< 16 + c <<< 8 + d) :: beWords rest
  | _ => []

/-- Message schedule: extend the sixteen block words to sixty-four. -/
def schedule (ws : List Nat) : List Nat :=
  (List.range 64).foldl
    (fun acc i =>
      if i < 16 then acc ++ [ws.getD i 0]
      else
        acc ++ [w32 (ssig1 (acc.getD (i - 2) 0) + acc.getD (i - 7) 0 +
                     ssig0 (acc.getD (i - 15) 0) + acc.getD (i - 16) 0)])
    []

/-- Compress one 64-byte block into the running hash state. -/
def compressBlock (s : Sha256State) (block : List Nat) : Sha256State :=
  let ws := schedule (beWords block)
  let t := (List.zipWith (fun k w => w32 (k + w)) sha256K ws).foldl sha256Round s
  ⟨w32 (s.a + t.a), w32 (s.b + t.b), w32 (s.c + t.c), w32 (s.d + t.d),
   w32 (s.e + t.e), w32 (s.f + t.f), w32 (s.g + t.g), w32 (s.hh + t.hh)⟩

/-- Big-endian eight-byte rendering of a length in bits. -/
def be64 (n : Nat) : List Nat :=
  [n >>> 56 % 256, n >>> 48 % 256, n >>> 40 % 256, n >>> 32 % 256,
   n >>> 24 % 256, n >>> 16 % 256, n >>> 8 % 256, n % 256]

/-- Big-endian four-byte rendering of a 32-bit word. -/
def be4 (n : Nat) : List Nat := [n >>> 24 % 256, n >>> 16 % 256, n >>> 8 % 256, n % 256]

/-- SHA-256 padding: append 0x80, zero bytes, and the 64-bit bit length. -/
def sha256Pad (msg : List Nat) : List Nat :=
  msg ++ 0x80 :: List.replicate ((119 - msg.length % 64) % 64) 0 ++ be64 (8 * msg.length)

/-- Split a byte list into 64-byte chunks, with fuel for structural recursion. -/
def chunks64Aux : Nat → List Nat → List (List Nat)
  | 0, _ => []
  | _, [] => []
  | fuel + 1, l => l.take 64 :: chunks64Aux fuel (l.drop 64)

/-- Split a byte list into 64-byte chunks. -/
def chunks64 (l : List Nat) : List (List Nat) := chunks64Aux l.length l

/-- Serialize a hash state to its 32 digest bytes. -/
def stateBytes (s : Sha256State) : List Nat :=
  be4 s.a ++ be4 s.b ++ be4 s.c ++ be4 s.d ++ be4 s.e ++ be4 s.f ++ be4 s.g ++ be4 s.hh

/-- SHA-256 of a byte list. -/
def sha256 (msg : List Nat) : List Nat :=
  stateBytes ((chunks64 (sha256Pad msg)).foldl compressBlock sha256Init)

/-- HMAC-SHA256 with key and message given as byte lists. -/
def hmacSha256 (key msg : List Nat) : List Nat :=
  let k0 := if 64 < key.length then sha256 key else key
  let kp := k0 ++ List.replicate (64 - k0.length) 0
  sha256 ((kp.map (fun b => b ^^^ 0x5c)) ++ sha256 ((kp.map (fun b => b ^^^ 0x36)) ++ msg))

/-- Lowercase hexadecimal digit for a value below sixteen. -/
def hexDigit (n : Nat) : Char := if n < 10 then Char.ofNat (48 + n) else Char.ofNat (87 + n)

/-- Two lowercase hexadecimal digits of one byte. -/
def hexByte (b : Nat) : List Char := [hexDigit (b / 16 % 16), hexDigit (b % 16)]

/-- Lowercase hexadecimal rendering of a byte list. -/
def toHex (bs : List Nat) : String := String.mk ((bs.map hexByte).flatten)

/-- UTF-8 bytes of one character code point. -/
def utf8Char (c : Nat) : List Nat :=
  if c < 0x80 then [c]
  else if c < 0x800 then [0xc0 ||| (c >>> 6), 0x80 ||| (c &&& 0x3f)]
  else if c < 0x10000 then
    [0xe0 ||| (c >>> 12), 0x80 ||| ((c >>> 6) &&& 0x3f), 0x80 ||| (c &&& 0x3f)]
  else
    [0xf0 ||| (c >>> 18), 0x80 ||| ((c >>> 12) &&& 0x3f),
     0x80 ||| ((c >>> 6) &&& 0x3f), 0x80 ||| (c &&& 0x3f)]

/-- UTF-8 bytes of a string. -/
def utf8 (s : String) : List Nat := (s.data.map (fun c => utf8Char c.toNat)).flatten

/-- JSON values, with objects keeping fields in insertion order. -/
inductive JVal where
  | null : JVal
  | bool (b : Bool) : JVal
  | num (n : Int) : JVal
  | str (s : String) : JVal
  | arr (elems : List JVal) : JVal
  | obj (fields : List (String × JVal)) : JVal
deriving Repr

/-- Form data as the source type FormData: a JSON object given as ordered fields. -/
def FormData := List (String × JVal)

/-- Escape one character the way JSON.stringify escapes string contents. -/
def escChar (c : Char) : String :=
  if c = '"' then "\\\""
  else if c = '\\' then "\\\\"
  else if c = '\n' then "\\n"
  else if c = '\r' then "\\r"
  else if c = '\t' then "\\t"
  else if c.toNat = 8 then "\\b"
  else if c.toNat = 12 then "\\f"
  else if c.toNat < 32 then "\\u00" ++ String.mk (hexByte c.toNat)
  else String.singleton c

/-- Quote a string the way JSON.stringify renders it. -/
def quoteJson (s : String) : String := "\"" ++ String.join (s.data.map escChar) ++ "\""

mutual

/-- Serialization of a JSON value as JSON.stringify produces it, object fields
in insertion order. -/
def stringify : JVal → String
  | .null => "null"
  | .bool true => "true"
  | .bool false => "false"
  | .num n => toString n
  | .str s => quoteJson s
  | .arr l => "[" ++ stringifyArr l ++ "]"
  | .obj l => "\x7b" ++ stringifyObj l ++ "\x7d"

/-- Comma-separated serialization of array elements. -/
def stringifyArr : List JVal → String
  | [] => ""
  | [x] => stringify x
  | x :: y :: tl => stringify x ++ "," ++ stringifyArr (y :: tl)

/-- Comma-separated serialization of object fields in insertion order. -/
def stringifyObj : List (String × JVal) → String
  | [] => ""
  | [(k, v)] => quoteJson k ++ ":" ++ stringify v
  | (k, v) :: p :: tl => quoteJson k ++ ":" ++ stringify v ++ "," ++ stringifyObj (p :: tl)

end

/-- Lookup in an ordered string-keyed map, first matching key wins. -/
def getKey {α : Type} : List (String × α) → String → Option α
  | [], _ => none
  | (k1, v) :: tl, k => if k1 = k then some v else getKey tl k

/-- Assign a key the way a JS property write does: replace the value in place
when the key exists, keeping its position, otherwise append the pair at the
end. -/
def setKey {α : Type} : List (String × α) → String → α → List (String × α)
  | [], k, v => [(k, v)]
  | (k1, v1) :: tl, k, v => if k1 = k then (k, v) :: tl else (k1, v1) :: setKey tl k v

/-- Merge of two ordered maps as the JS spread expression in send builds it:
start from the first map and assign every pair of the second in order, so the
second map wins on key collision. -/
def mergeObj {α : Type} (a b : List (String × α)) : List (String × α) :=
  b.foldl (fun acc p => setKey acc p.1 p.2) a

/-- Modelled from the spec: the fixed embedded signing key of src/constants.ts,
which is absent from the snapshot.  Only its fixedness matters to the claims,
never its value, so a placeholder byte string stands in for it. -/
def SIGNATURE_KEY : String := "signature-key-placeholder"

/-- Modelled from the spec: the fixed signature version tag of
src/constants.ts, absent from the snapshot; a placeholder value. -/
def SIGNATURE_VERSION : String := "4"

/-- Modelled from the spec: the connection type header constant of
src/constants.ts, absent from the snapshot; a placeholder value. -/
def HEADER_CONNECTION_TYPE : String := "WIFI"

/-- Modelled from the spec: the device capabilities header constant of
src/constants.ts, absent from the snapshot; a placeholder value. -/
def HEADER_CAPABILITIES : String := "capabilities-placeholder"

/-- Modelled from the spec: the application id constant of src/constants.ts,
absent from the snapshot; a placeholder value. -/
def FACEBOOK_ANALYTICS_APPLICATION_ID : String := "app-id-placeholder"

/-- Modelled from the spec: the versioned client build identifier of
src/constants.ts, absent from the snapshot; a placeholder value. -/
def BLOKS_VERSION_ID : String := "bloks-version-placeholder"

/-- Modelled from the spec: the locale constant of src/constants.ts, absent
from the snapshot; a placeholder with the underscore form the source expects. -/
def LANGUAGE : String := "en_US"

/-- Modelled from the spec: the API host constant of src/constants.ts, absent
from the snapshot; a placeholder value. -/
def API_HOST : String := "api-host-placeholder"

/-- Session state shared with the client, restricted to the fields Request.ts
reads or writes.  The cookie store is modelled by its accessor function. -/
structure State where
  csrfToken : String
  uuid : String
  deviceId : String
  pigeonSessionId : String
  igWWWClaim : String
  authorization : String
  passwordEncryptionKeyId : String
  passwordEncryptionPublicKey : String
  appUserAgent : String
  getCookieValue : String → String

/-- Response header values as Node surfaces them: a single string, or an array
when the header occurred more than once. -/
inductive HVal where
  | str (s : String) : HVal
  | arr (l : List String) : HVal
deriving Repr, DecidableEq

/-- Options of one send call, as the source type RequestOptions. -/
structure RequestOptions where
  url : String
  method : Option String
  headers : Option (List (String × String))
  data : Option FormData

/-- The signed envelope type returned by signData. -/
structure SignedFormBody where
  ig_sig_key_version : String
  signed_body : String
deriving Repr, DecidableEq

/-- An HTTP response as the transport hands it to the hook: status code,
headers, and the already JSON-parsed body. -/
structure HttpResponse where
  statusCode : Nat
  headers : List (String × HVal)
  body : JVal

/-- The outgoing request send hands to the transport. -/
structure OutgoingRequest where
  url : String
  method : String
  headers : List (String × String)
  form : SignedFormBody

/-- Replace the first occurrence of a character, as the JS string replace with
a one-character string pattern behaves on character data. -/
def replaceFirstChar : List Char → Char → Char → List Char
  | [], _, _ => []
  | c :: tl, a, b => if c = a then b :: tl else c :: replaceFirstChar tl a b

/-- Decimal digit characters of a natural number, most significant first. -/
def natDigits (n : Nat) : List Char :=
  if h : n < 10 then [Char.ofNat (48 + n)]
  else
    have : n / 10 < n := Nat.div_lt_self (by omega) (by omega)
    natDigits (n / 10) ++ [Char.ofNat (48 + n % 10)]

/-- Three decimal digit characters of the fractional milliseconds, zero padded
as toFixed(3) renders them. -/
def pad3Chars (n : Nat) : List Char :=
  [Char.ofNat (48 + n / 100 % 10), Char.ofNat (48 + n / 10 % 10), Char.ofNat (48 + n % 10)]

/-- Rendering of the clock as the source expression
(Date.now() / 1000).toFixed(3) produces it for a clock of nowMs integer
milliseconds: whole seconds, a dot, and exactly three fractional digits. -/
def rawClientTime (nowMs : Nat) : String :=
  String.mk (natDigits (nowMs / 1000)) ++ "." ++ String.mk (pad3Chars (nowMs % 1000))

namespace Request

/-- Embedding of Request.sign: lowercase hex HMAC-SHA256 of the UTF-8 bytes of
the payload under the fixed signing key. -/
def sign (data : String) : String := toHex (hmacSha256 (utf8 SIGNATURE_KEY) (utf8 data))

/-- Embedding of Request.signData: stringify the form data in insertion order,
sign the JSON, and wrap both in the two-field signed envelope. -/
def signData (data : FormData) : SignedFormBody :=
  let string := stringify (JVal.obj data)
  let signature := sign string
  { ig_sig_key_version := SIGNATURE_VERSION, signed_body := signature ++ "." ++ string }

/-- Embedding of the private data getter: the default form data is the single
CSRF token field read from session state. -/
def data (st : State) : FormData := [("_csrfToken", JVal.str st.csrfToken)]

/-- Embedding of the private headers getter: the default header table, in
source order, as a function of session state and the millisecond clock. -/
def headers (st : State) (nowMs : Nat) : List (String × String) :=
  [("X-Ads-Opt-Out", "1"),
   ("X-CM-Bandwidth-KBPS", "-1.000"),
   ("X-CM-Latency", "-1.000"),
   ("X-IG-Connection-Speed", "3700kbps"),
   ("X-IG-Bandwidth-Speed-KBPS", "-1.000"),
   ("X-IG-Bandwidth-TotalBytes-B", "0"),
   ("X-IG-Bandwidth-TotalTime-MS", "0"),
   ("X-IG-EU-DC-ENABLED", "false"),
   ("X-IG-Extended-CDN-Thumbnail-Cache-Busting-Value", "1000"),
   ("X-IG-WWW-Claim", "0"),
   ("X-Bloks-Is-Layout-RTL", "false"),
   ("X-FB-HTTP-Engine", "Liger"),
   ("X-Pigeon-Rawclienttime", rawClientTime nowMs),
   ("X-Pigeon-Session-Id", st.pigeonSessionId),
   ("X-IG-Connection-Type", HEADER_CONNECTION_TYPE),
   ("X-IG-Capabilities", HEADER_CAPABILITIES),
   ("X-IG-App-ID", FACEBOOK_ANALYTICS_APPLICATION_ID),
   ("X-Bloks-Version-Id", BLOKS_VERSION_ID),
   ("X-IG-App-Locale", LANGUAGE),
   ("X-IG-Device-Locale", LANGUAGE),
   ("X-IG-Device-ID", st.uuid),
   ("X-IG-Android-ID", st.deviceId),
   ("X-DEVICE-ID", st.uuid),
   ("X-MID", st.getCookieValue "mid"),
   ("Accept-Language", String.mk (replaceFirstChar LANGUAGE.data '_' '-')),
   ("Accept-Encoding", "gzip"),
   ("User-Agent", st.appUserAgent),
   ("Authorization", st.authorization),
   ("Host", API_HOST),
   ("Connection", "close")]

/-- Embedding of Request.updateStateFromResponse: copy each of the four
tracked response headers into session state when it is present as a single
string, and leave the field alone otherwise. -/
def updateStateFromResponse (st : State) (hs : List (String × HVal)) : State :=
  let st1 := match getKey hs "x-ig-set-www-claim" with
    | some (HVal.str s) => { st with igWWWClaim := s }
    | _ => st
  let st2 := match getKey hs "ig-set-authorization" with
    | some (HVal.str s) => { st1 with authorization := s }
    | _ => st1
  let st3 := match getKey hs "ig-set-password-encryption-key-id" with
    | some (HVal.str s) => { st2 with passwordEncryptionKeyId := s }
    | _ => st2
  match getKey hs "ig-set-password-encryption-pub-key" with
    | some (HVal.str s) => { st3 with passwordEncryptionPublicKey := s }
    | _ => st3

/-- The merged header map of one send call: defaults spread first, per-call
overrides spread second. -/
def mergedHeaders (st : State) (nowMs : Nat) (opts : RequestOptions) : List (String × String) :=
  mergeObj (headers st nowMs) (opts.headers.getD [])

/-- The merged form data of one send call: defaults spread first, per-call
fields spread second. -/
def mergedData (st : State) (opts : RequestOptions) : FormData :=
  mergeObj (data st) (opts.data.getD [])

/-- The outgoing request of one send call: merged headers, merged data passed
through signData, the given url, and the method defaulting to GET. -/
def buildRequest (st : State) (nowMs : Nat) (opts : RequestOptions) : OutgoingRequest :=
  { url := opts.url,
    method := opts.method.getD "GET",
    headers := mergedHeaders st nowMs opts,
    form := signData (mergedData st opts) }

/-- Embedding of Request.send for one completed exchange: the outgoing request
handed to the transport, the session state after the afterResponse hook, and
the parsed body returned to the caller. -/
def send (st : State) (nowMs : Nat) (opts : RequestOptions) (resp : HttpResponse) :
    OutgoingRequest × State × JVal :=
  (buildRequest st nowMs opts, updateStateFromResponse st resp.headers, resp.body)

end Request

/-- Decimal digit character test. -/
def isDigit (c : Char) : Bool := 48 ≤ c.toNat && c.toNat ≤ 57

/-- Lowercase hexadecimal digit character test. -/
def isLowerHex (c : Char) : Bool :=
  (48 ≤ c.toNat && c.toNat ≤ 57) || (97 ≤ c.toNat && c.toNat ≤ 102)

/-- Numeric value of a list of decimal digit characters, most significant
first. -/
def digitsToNat (l : List Char) : Nat := l.foldl (fun acc c => 10 * acc + (c.toNat - 48)) 0

/-- Shape test for a clock rendering: digits, one dot, then exactly three
digits. -/
def fixed3Shape (s : String) : Bool :=
  match s.data.reverse with
  | d1 :: d2 :: d3 :: dot :: rest =>
    isDigit d1 && isDigit d2 && isDigit d3 && dot = '.' && !rest.isEmpty && rest.all isDigit
  | _ => false

/-- Parse a fixed three-decimal rendering of seconds back to integer
milliseconds. -/
def parseFixed3 (s : String) : Option Nat :=
  match s.data.reverse with
  | d1 :: d2 :: d3 :: dot :: rest =>
    if isDigit d1 && isDigit d2 && isDigit d3 && dot = '.' && !rest.isEmpty && rest.all isDigit then
      some (1000 * digitsToNat rest.reverse +
            100 * (d3.toNat - 48) + 10 * (d2.toNat - 48) + (d1.toNat - 48))
    else none
  | _ => none

/-- A hexadecimal digit below sixteen renders as a lowercase hex character. -/
theorem isLowerHex_hexDigit (m : Nat) (hm : m < 16) : isLowerHex (hexDigit m) = true := by
  interval_cases m <;> decide

/-- Every character toHex emits is a lowercase hexadecimal character. -/
theorem toHex_all_lowerHex (bs : List Nat) : (toHex bs).data.all isLowerHex = true := by
  show ((bs.map hexByte).flatten).all isLowerHex = true
  induction bs with
  | nil => rfl
  | cons b tl ih =>
    have h1 : isLowerHex (hexDigit (b / 16 % 16)) = true := isLowerHex_hexDigit _ (by omega)
    have h2 : isLowerHex (hexDigit (b % 16)) = true := isLowerHex_hexDigit _ (by omega)
    simp [hexByte, List.all_append, h1, h2, ih]

/-- The rendering of a byte list has two characters per byte. -/
theorem toHex_length (bs : List Nat) : (toHex bs).length = 2 * bs.length := by
  show ((bs.map hexByte).flatten).length = 2 * bs.length
  induction bs with
  | nil => rfl
  | cons b tl ih =>
    simp only [List.map_cons, List.flatten_cons, List.length_append, ih, hexByte,
      List.length_cons, List.length_nil, List.length_map]
    omega

/-- A SHA-256 digest is exactly 32 bytes. -/
theorem sha256_length (msg : List Nat) : (sha256 msg).length = 32 := by
  simp [sha256, stateBytes, be4]

/-- An HMAC-SHA256 digest is exactly 32 bytes. -/
theorem hmacSha256_length (key msg : List Nat) : (hmacSha256 key msg).length = 32 := by
  simp [hmacSha256, sha256_length]

/-- The signature rendered by sign is exactly 64 characters. -/
theorem sign_length (x : String) : (Request.sign x).length = 64 := by
  simp [Request.sign, toHex_length, hmacSha256_length]

/-- Every character of a signature is a lowercase hexadecimal character. -/
theorem sign_all_lowerHex (x : String) : (Request.sign x).data.all isLowerHex = true :=
  toHex_all_lowerHex _

/-- A key outside the key list of a map looks up to none. -/
theorem getKey_eq_none_of_not_mem {α : Type} (l : List (String × α)) (k : String)
    (h : k ∉ l.map Prod.fst) : getKey l k = none := by
  induction l with
  | nil => rfl
  | cons p tl ih =>
    obtain ⟨k1, v1⟩ := p
    simp only [List.map_cons, List.mem_cons, not_or] at h
    have hne : ¬ (k1 = k) := fun hx => h.1 hx.symm
    simp [getKey, hne, ih h.2]

/-- Assigning a key makes it look up to the assigned value. -/
theorem getKey_setKey_self {α : Type} (l : List (String × α)) (k : String) (v : α) :
    getKey (setKey l k v) k = some v := by
  induction l with
  | nil => simp [setKey, getKey]
  | cons p tl ih =>
    obtain ⟨k1, v1⟩ := p
    by_cases hk : k1 = k
    · rw [setKey, if_pos hk]
      simp [getKey]
    · rw [setKey, if_neg hk]
      simp [getKey, hk, ih]

/-- Assigning one key leaves the lookup of every other key unchanged. -/
theorem getKey_setKey_ne {α : Type} (l : List (String × α)) (k : String) (v : α)
    (k2 : String) (hne : k2 ≠ k) : getKey (setKey l k v) k2 = getKey l k2 := by
  have hkk2 : ¬ (k = k2) := fun h => hne h.symm
  induction l with
  | nil => simp [setKey, getKey, hkk2]
  | cons p tl ih =>
    obtain ⟨k1, v1⟩ := p
    by_cases hk : k1 = k
    · rw [setKey, if_pos hk]
      subst hk
      simp [getKey, hkk2]
    · rw [setKey, if_neg hk]
      simp [getKey, ih]

/-- A decimal digit value below ten renders as a digit character. -/
theorem digitChar_isDigit (m : Nat) (h : m < 10) : isDigit (Char.ofNat (48 + m)) = true := by
  interval_cases m <;> decide

/-- The code point of a rendered decimal digit. -/
theorem toNat_digitChar (m : Nat) (h : m < 10) : (Char.ofNat (48 + m)).toNat = 48 + m := by
  interval_cases m <;> decide

/-- The digit rendering of a natural number is never empty. -/
theorem natDigits_ne_nil (n : Nat) : natDigits n ≠ [] := by
  rw [natDigits]
  split
  · simp
  · simp

/-- Every character of the digit rendering of a natural number is a digit. -/
theorem natDigits_all_digits (n : Nat) : (natDigits n).all isDigit = true := by
  induction n using Nat.strong_induction_on with
  | _ n ih =>
    rw [natDigits]
    split
    · rename_i h
      simp [digitChar_isDigit n h]
    · rename_i h
      have h10 : n / 10 < n := Nat.div_lt_self (by omega) (by omega)
      have hd : isDigit (Char.ofNat (48 + n % 10)) = true := digitChar_isDigit _ (by omega)
      simp [List.all_append, ih _ h10, hd]

/-- Reading the digit rendering of a natural number back gives the number. -/
theorem digitsToNat_natDigits (n : Nat) : digitsToNat (natDigits n) = n := by
  induction n using Nat.strong_induction_on with
  | _ n ih =>
    rw [natDigits]
    split
    · rename_i h
      simp [digitsToNat, toNat_digitChar n h]
    · rename_i h
      have h10 : n / 10 < n := Nat.div_lt_self (by omega) (by omega)
      have hc : (Char.ofNat (48 + n % 10)).toNat = 48 + n % 10 := toNat_digitChar _ (by omega)
      unfold digitsToNat
      rw [List.foldl_append]
      have hrec : List.foldl (fun acc c => 10 * acc + (c.toNat - 48)) 0 (natDigits (n / 10))
          = n / 10 := ih _ h10
      rw [hrec]
      simp [hc]
      omega

/-- The character data of the rendered clock: seconds digits, a dot, and the
three padded millisecond digits. -/
theorem rawClientTime_data (n : Nat) :
    (rawClientTime n).data = natDigits (n / 1000) ++ '.' :: pad3Chars (n % 1000) := by
  simp [rawClientTime, String.data_append]

/-- The rendered clock has exactly one dot followed by exactly three decimal
digits. -/
theorem fixed3Shape_rawClientTime (n : Nat) : fixed3Shape (rawClientTime n) = true := by
  unfold fixed3Shape
  rw [rawClientTime_data, List.reverse_append]
  simp only [pad3Chars, List.reverse_cons, List.reverse_nil, List.nil_append,
    List.cons_append, List.append_assoc]
  simp only [List.all_reverse]
  simp [digitChar_isDigit (n % 1000 / 100 % 10) (by omega),
        digitChar_isDigit (n % 1000 / 10 % 10) (by omega),
        digitChar_isDigit (n % 1000 % 10) (by omega),
        natDigits_all_digits, natDigits_ne_nil]

/-- Parsing the rendered clock recovers the exact millisecond count, so the
rendered value is the call time itself. -/
theorem parseFixed3_rawClientTime (n : Nat) : parseFixed3 (rawClientTime n) = some n := by
  unfold parseFixed3
  rw [rawClientTime_data, List.reverse_append]
  simp only [pad3Chars, List.reverse_cons, List.reverse_nil, List.nil_append,
    List.cons_append, List.append_assoc]
  simp only [List.all_reverse, List.reverse_reverse]
  rw [if_pos]
  · rw [digitsToNat_natDigits]
    rw [toNat_digitChar (n % 1000 / 100 % 10) (by omega),
        toNat_digitChar (n % 1000 / 10 % 10) (by omega),
        toNat_digitChar (n % 1000 % 10) (by omega)]
    congr 1
    omega
  · simp [digitChar_isDigit (n % 1000 / 100 % 10) (by omega),
          digitChar_isDigit (n % 1000 / 10 % 10) (by omega),
          digitChar_isDigit (n % 1000 % 10) (by omega),
          natDigits_all_digits, natDigits_ne_nil]

/-- Merging one pair of the override map is one key assignment. -/
theorem mergeObj_cons {α : Type} (a : List (String × α)) (p : String × α)
    (tl : List (String × α)) : mergeObj a (p :: tl) = mergeObj (setKey a p.1 p.2) tl := rfl

/-- Merging leaves a key absent from the override map at its default value. -/
theorem getKey_mergeObj_none {α : Type} (a b : List (String × α)) (k : String)
    (h : getKey b k = none) : getKey (mergeObj a b) k = getKey a k := by
  induction b generalizing a with
  | nil => rfl
  | cons p tl ih =>
    obtain ⟨k1, v1⟩ := p
    by_cases hk : k1 = k
    · simp [getKey, hk] at h
    · simp only [getKey, hk, if_false] at h
      rw [mergeObj_cons]
      rw [ih (setKey a k1 v1) h]
      exact getKey_setKey_ne a k1 v1 k (fun hx => hk hx.symm)

/-- Merging gives every key of the override map its override value, when the
override map binds each key once. -/
theorem getKey_mergeObj_some {α : Type} (a b : List (String × α)) (k : String) (v : α)
    (hnd : (b.map Prod.fst).Nodup) (h : getKey b k = some v) :
    getKey (mergeObj a b) k = some v := by
  induction b generalizing a with
  | nil => simp [getKey] at h
  | cons p tl ih =>
    obtain ⟨k1, v1⟩ := p
    simp only [List.map_cons, List.nodup_cons] at hnd
    rw [mergeObj_cons]
    by_cases hk : k1 = k
    · subst hk
      simp only [getKey, if_pos rfl] at h
      have htl : getKey tl k1 = none := getKey_eq_none_of_not_mem tl k1 hnd.1
      rw [getKey_mergeObj_none (setKey a k1 v1) tl k1 htl, getKey_setKey_self a k1 v1]
      exact h
    · simp only [getKey, hk, if_false] at h
      exact ih (setKey a k1 v1) hnd.2 h

/-- Field-by-field characterization of the response hook: each of the four
tracked session fields takes the response header value when that header is a
single string and keeps its old value otherwise, and every other session field
is untouched. -/
theorem updateState_fields (st : State) (hs : List (String × HVal)) :
    ((Request.updateStateFromResponse st hs).igWWWClaim =
      match getKey hs "x-ig-set-www-claim" with
      | some (HVal.str s) => s
      | _ => st.igWWWClaim)
    ∧ ((Request.updateStateFromResponse st hs).authorization =
      match getKey hs "ig-set-authorization" with
      | some (HVal.str s) => s
      | _ => st.authorization)
    ∧ ((Request.updateStateFromResponse st hs).passwordEncryptionKeyId =
      match getKey hs "ig-set-password-encryption-key-id" with
      | some (HVal.str s) => s
      | _ => st.passwordEncryptionKeyId)
    ∧ ((Request.updateStateFromResponse st hs).passwordEncryptionPublicKey =
      match getKey hs "ig-set-password-encryption-pub-key" with
      | some (HVal.str s) => s
      | _ => st.passwordEncryptionPublicKey)
    ∧ (Request.updateStateFromResponse st hs).csrfToken = st.csrfToken
    ∧ (Request.updateStateFromResponse st hs).uuid = st.uuid
    ∧ (Request.updateStateFromResponse st hs).deviceId = st.deviceId
    ∧ (Request.updateStateFromResponse st hs).pigeonSessionId = st.pigeonSessionId
    ∧ (Request.updateStateFromResponse st hs).appUserAgent = st.appUserAgent
    ∧ (Request.updateStateFromResponse st hs).getCookieValue = st.getCookieValue := by
  unfold Request.updateStateFromResponse
  rcases h1 : getKey hs "x-ig-set-www-claim" with _ | (s1 | l1) <;>
  rcases h2 : getKey hs "ig-set-authorization" with _ | (s2 | l2) <;>
  rcases h3 : getKey hs "ig-set-password-encryption-key-id" with _ | (s3 | l3) <;>
  rcases h4 : getKey hs "ig-set-password-encryption-pub-key" with _ | (s4 | l4) <;>
  simp

set_option maxRecDepth 20000

/-- Validation of the hash embedding against the FIPS 180-2 test vector for
the message abc. -/
theorem sha256_fips_vector :
    toHex (sha256 (utf8 "abc"))
      = "ba7816bf8f01cfea414140de5dae2223b00361a396177a9cb410ff61f20015ad" := by
  decide

/-- Validation of the HMAC embedding against test case two of RFC 4231. -/
theorem hmacSha256_rfc4231_vector :
    toHex (hmacSha256 (utf8 "Jefe") (utf8 "what do ya want for nothing?"))
      = "5bdcc146bf60754e6a042426089575c75a003f089d2739839dec58b964ec3843" := by
  decide

/-- A concrete session state used by closed witness statements. -/
def stTest : State :=
  { csrfToken := "csrf", uuid := "uuid", deviceId := "dev", pigeonSessionId := "pigeon",
    igWWWClaim := "claim", authorization := "auth", passwordEncryptionKeyId := "keyid",
    passwordEncryptionPublicKey := "pub", appUserAgent := "agent",
    getCookieValue := fun _ => "mid" }

/-- Concrete request options used by closed witness statements. -/
def optsTest : RequestOptions :=
  { url := "foo", method := some "POST",
    headers := some [("X-Ads-Opt-Out", "0")],
    data := some [("x", JVal.num 1)] }

/-- C1: for every field mapping, signData returns the two-field envelope whose
version field is the fixed version tag and whose signed_body is the signature
of the insertion-order JSON, a dot, and that same JSON; in particular for the
object binding a to 1 the signed_body is a 64-character lowercase-hex
signature, a dot, and that JSON text. -/
theorem claim1_signData_envelope :
    (∀ d : FormData, Request.signData d =
      { ig_sig_key_version := SIGNATURE_VERSION,
        signed_body := Request.sign (stringify (JVal.obj d)) ++ "." ++ stringify (JVal.obj d) })
    ∧ (Request.signData [("a", JVal.num 1)]).signed_body
        = Request.sign "\x7b\"a\":1\x7d" ++ "." ++ "\x7b\"a\":1\x7d"
    ∧ (Request.sign "\x7b\"a\":1\x7d").length = 64
    ∧ (Request.sign "\x7b\"a\":1\x7d").data.all isLowerHex = true :=
  ⟨fun _ => rfl, rfl, sign_length _, sign_all_lowerHex _⟩

/-- C2: sign is a pure deterministic function equal to the lowercase-hex
HMAC-SHA256 of the UTF-8 bytes of its argument under the fixed embedded key:
repeated application gives the same 64-character lowercase-hex digest, and no
state appears anywhere in its signature. -/
theorem claim2_sign_pure (x : String) :
    Request.sign x = Request.sign x
    ∧ Request.sign x = toHex (hmacSha256 (utf8 SIGNATURE_KEY) (utf8 x))
    ∧ (Request.sign x).length = 64
    ∧ (Request.sign x).data.all isLowerHex = true :=
  ⟨rfl, rfl, sign_length x, sign_all_lowerHex x⟩

/-- C3: in the header map and the body map send builds, every key of the
override map looks up to its override value, and every key absent from the
override map looks up to its default value. -/
theorem claim3_merge_override_wins (st : State) (nowMs : Nat) (opts : RequestOptions)
    (k : String) :
    (((opts.headers.getD []).map Prod.fst).Nodup →
      ∀ v : String, getKey (opts.headers.getD []) k = some v →
        getKey (Request.mergedHeaders st nowMs opts) k = some v)
    ∧ (getKey (opts.headers.getD []) k = none →
        getKey (Request.mergedHeaders st nowMs opts) k = getKey (Request.headers st nowMs) k)
    ∧ (((opts.data.getD []).map Prod.fst).Nodup →
      ∀ w : JVal, getKey (opts.data.getD []) k = some w →
        getKey (Request.mergedData st opts) k = some w)
    ∧ (getKey (opts.data.getD []) k = none →
        getKey (Request.mergedData st opts) k = getKey (Request.data st) k) :=
  ⟨fun hnd v hv => getKey_mergeObj_some _ _ _ v hnd hv,
   fun hn => getKey_mergeObj_none _ _ _ hn,
   fun hnd w hw => getKey_mergeObj_some _ _ _ w hnd hw,
   fun hn => getKey_mergeObj_none _ _ _ hn⟩

/-- Witness for C3 at a concrete state and concrete override maps: the
overridden header key carries the override value in the merged map. -/
theorem claim3_witness :
    getKey (Request.mergedHeaders stTest 1700000000123 optsTest) "X-Ads-Opt-Out" = some "0" :=
  (claim3_merge_override_wins stTest 1700000000123 optsTest "X-Ads-Opt-Out").1
    (by decide) "0" rfl

/-- C4: the body of every outgoing request is exactly the signed envelope of
the default body fields merged under the caller fields: a version-tag field
and a signed_body that is the signature of the merged JSON joined to the
merged JSON, and nothing else. -/
theorem claim4_signed_envelope (st : State) (nowMs : Nat) (opts : RequestOptions)
    (resp : HttpResponse) :
    (Request.send st nowMs opts resp).1.form
      = Request.signData (mergeObj (Request.data st) (opts.data.getD []))
    ∧ (Request.send st nowMs opts resp).1.form.ig_sig_key_version = SIGNATURE_VERSION
    ∧ (Request.send st nowMs opts resp).1.form.signed_body
      = Request.sign (stringify (JVal.obj (mergeObj (Request.data st) (opts.data.getD []))))
        ++ "." ++ stringify (JVal.obj (mergeObj (Request.data st) (opts.data.getD []))) :=
  ⟨rfl, rfl, rfl⟩

/-- C5: for each of the four tracked response headers, a single string value
overwrites the matching session field, an absent header leaves the field
untouched, and an array value is ignored; with all four absent the hook
returns the state unchanged, raising no error. -/
theorem claim5_response_hook (st : State) (hs : List (String × HVal)) :
    (∀ v, getKey hs "x-ig-set-www-claim" = some (HVal.str v) →
      (Request.updateStateFromResponse st hs).igWWWClaim = v)
    ∧ (getKey hs "x-ig-set-www-claim" = none →
      (Request.updateStateFromResponse st hs).igWWWClaim = st.igWWWClaim)
    ∧ (∀ l, getKey hs "x-ig-set-www-claim" = some (HVal.arr l) →
      (Request.updateStateFromResponse st hs).igWWWClaim = st.igWWWClaim)
    ∧ (∀ v, getKey hs "ig-set-authorization" = some (HVal.str v) →
      (Request.updateStateFromResponse st hs).authorization = v)
    ∧ (getKey hs "ig-set-authorization" = none →
      (Request.updateStateFromResponse st hs).authorization = st.authorization)
    ∧ (∀ l, getKey hs "ig-set-authorization" = some (HVal.arr l) →
      (Request.updateStateFromResponse st hs).authorization = st.authorization)
    ∧ (∀ v, getKey hs "ig-set-password-encryption-key-id" = some (HVal.str v) →
      (Request.updateStateFromResponse st hs).passwordEncryptionKeyId = v)
    ∧ (getKey hs "ig-set-password-encryption-key-id" = none →
      (Request.updateStateFromResponse st hs).passwordEncryptionKeyId = st.passwordEncryptionKeyId)
    ∧ (∀ l, getKey hs "ig-set-password-encryption-key-id" = some (HVal.arr l) →
      (Request.updateStateFromResponse st hs).passwordEncryptionKeyId = st.passwordEncryptionKeyId)
    ∧ (∀ v, getKey hs "ig-set-password-encryption-pub-key" = some (HVal.str v) →
      (Request.updateStateFromResponse st hs).passwordEncryptionPublicKey = v)
    ∧ (getKey hs "ig-set-password-encryption-pub-key" = none →
      (Request.updateStateFromResponse st hs).passwordEncryptionPublicKey
        = st.passwordEncryptionPublicKey)
    ∧ (∀ l, getKey hs "ig-set-password-encryption-pub-key" = some (HVal.arr l) →
      (Request.updateStateFromResponse st hs).passwordEncryptionPublicKey
        = st.passwordEncryptionPublicKey) := by
  obtain ⟨e1, e2, e3, e4, -, -, -, -, -, -⟩ := updateState_fields st hs
  refine ⟨fun v hv => ?_, fun hn => ?_, fun l hl => ?_,
          fun v hv => ?_, fun hn => ?_, fun l hl => ?_,
          fun v hv => ?_, fun hn => ?_, fun l hl => ?_,
          fun v hv => ?_, fun hn => ?_, fun l hl => ?_⟩
  · rw [e1, hv]
  · rw [e1, hn]
  · rw [e1, hl]
  · rw [e2, hv]
  · rw [e2, hn]
  · rw [e2, hl]
  · rw [e3, hv]
  · rw [e3, hn]
  · rw [e3, hl]
  · rw [e4, hv]
  · rw [e4, hn]
  · rw [e4, hl]

/-- Witness for C5: a concrete response carrying the claim header as a single
string overwrites the session claim field. -/
theorem claim5_witness :
    (Request.updateStateFromResponse stTest
      [("x-ig-set-www-claim", HVal.str "newclaim"),
       ("ig-set-authorization", HVal.arr ["a", "b"])]).igWWWClaim = "newclaim" :=
  (claim5_response_hook stTest
    [("x-ig-set-www-claim", HVal.str "newclaim"),
     ("ig-set-authorization", HVal.arr ["a", "b"])]).1 "newclaim" rfl

/-- C6: the default body field set is exactly the single CSRF token field, and
for the POST to foo with data x bound to 1 the merged JSON object underlying
the outgoing signed_body is the CSRF field followed by the x field. -/
theorem claim6_default_body (st : State) (nowMs : Nat) :
    Request.data st = [("_csrfToken", JVal.str st.csrfToken)]
    ∧ Request.mergedData st
        { url := "foo", method := some "POST", headers := none, data := some [("x", JVal.num 1)] }
      = [("_csrfToken", JVal.str st.csrfToken), ("x", JVal.num 1)]
    ∧ (Request.buildRequest st nowMs
        { url := "foo", method := some "POST", headers := none,
          data := some [("x", JVal.num 1)] }).form
      = Request.signData [("_csrfToken", JVal.str st.csrfToken), ("x", JVal.num 1)] :=
  ⟨rfl, rfl, rfl⟩

/-- C7: send treats every HTTP status alike: the parsed body is returned and
the state update from response headers runs for every completed exchange,
independently of the status code. -/
theorem claim7_status_independent (st : State) (nowMs : Nat) (opts : RequestOptions)
    (hs : List (String × HVal)) (body : JVal) (s1 s2 : Nat) :
    Request.send st nowMs opts ⟨s1, hs, body⟩ = Request.send st nowMs opts ⟨s2, hs, body⟩
    ∧ (Request.send st nowMs opts ⟨s1, hs, body⟩).2.2 = body
    ∧ (Request.send st nowMs opts ⟨s1, hs, body⟩).2.1
      = Request.updateStateFromResponse st hs :=
  ⟨rfl, rfl, rfl⟩

/-- C8: the default raw client time header is the rendering of the call-time
millisecond clock: it has exactly one dot followed by exactly three decimal
digits, and it parses back to exactly the clock of the call, so each call
stamps its own fresh time. -/
theorem claim8_timestamp (st : State) (nowMs : Nat) :
    getKey (Request.headers st nowMs) "X-Pigeon-Rawclienttime" = some (rawClientTime nowMs)
    ∧ fixed3Shape (rawClientTime nowMs) = true
    ∧ parseFixed3 (rawClientTime nowMs) = some nowMs :=
  ⟨rfl, fixed3Shape_rawClientTime nowMs, parseFixed3_rawClientTime nowMs⟩

/-- C9: across one full send exchange the component writes only the four
tracked session fields; the CSRF token, device UUID, device id, pigeon
session id, cookie accessor, and rendered user agent come out unchanged. -/
theorem claim9_frame (st : State) (nowMs : Nat) (opts : RequestOptions)
    (resp : HttpResponse) :
    ((Request.send st nowMs opts resp).2.1).csrfToken = st.csrfToken
    ∧ ((Request.send st nowMs opts resp).2.1).uuid = st.uuid
    ∧ ((Request.send st nowMs opts resp).2.1).deviceId = st.deviceId
    ∧ ((Request.send st nowMs opts resp).2.1).pigeonSessionId = st.pigeonSessionId
    ∧ ((Request.send st nowMs opts resp).2.1).getCookieValue = st.getCookieValue
    ∧ ((Request.send st nowMs opts resp).2.1).appUserAgent = st.appUserAgent := by
  obtain ⟨-, -, -, -, h5, h6, h7, h8, h9, h10⟩ := updateState_fields st resp.headers
  exact ⟨h5, h6, h7, h8, h10, h9⟩

/-- C10: the outgoing claim header is the constant string zero for every
session state, and the header table never reads the stored claim value. -/
theorem claim10_www_claim_constant (st : State) (nowMs : Nat) (w : String) :
    getKey (Request.headers st nowMs) "X-IG-WWW-Claim" = some "0"
    ∧ Request.headers { st with igWWWClaim := w } nowMs = Request.headers st nowMs :=
  ⟨rfl, rfl⟩
